import Mathlib

/-!
Shallow embedding of the SupplyWise analysis engine (src/app.py).

The embedding covers the two entry points with decision logic:
`analyze_data(df, user_type)` (lines 84-190) and `create_visualizations(df)`
(lines 192-289), together with the pandas primitives they use (column
selection by dtype, keyword matching on lowercased column names, sum, mean,
linear-interpolation quantile, grouped aggregation with key-sorted groupby
followed by a descending value sort).

Modelling conventions:
- a dataframe is a list of named columns; a column is either numeric
  (rationals, pandas linear quantile interpolation is exact over ℚ) or an
  object/text column of strings;
- pandas NaN results (mean/quantile of an empty numeric column) are `none`
  in an `Option ℚ`; comparisons against NaN are false, matching pandas;
- Python exceptions inside the single `try:` block of each entry point are
  modelled by a raised-flag threaded through the sequence of analyzer
  segments: once a segment raises, the following segments do not run and
  the handler appends its fixed output to the insights accumulated so far,
  exactly like the in-place list mutation in the source;
- raising operations modelled: `.index[0]` on an empty grouped series
  (IndexError), `mean`/`quantile` on a non-empty object column (TypeError),
  the `f-string` float formatting of a string group sum (ValueError), and
  `Series.nlargest` on an object-dtype revenue column (TypeError); on an
  empty column of any dtype, `sum` is 0 and `mean`/`quantile` return NaN
  without raising (pandas' empty early-exit), so comparisons against the
  NaN threshold select zero rows and the segment still appends its insight;
- column lookup by name takes the first column with that name (pandas
  column labels are assumed unique, as in every dataset the app builds);
- groupby sorts group keys ascending (pandas default) and `sort_values`
  on ties is modelled as a stable sort; every theorem below only uses
  order properties that are independent of tie-breaking;
- chart construction (plotly calls) carries no decision logic, so a chart
  is represented by its kind and the column names that select its axes.
-/

namespace SupplyWise

/-- Prefix test on character lists: does the first list start with the second. -/
def charsStartWith : List Char → List Char → Bool
  | _, [] => true
  | [], _ :: _ => false
  | c :: cs, p :: ps => (c = p) && charsStartWith cs ps

/-- Substring test on character lists: does the first list contain the second. -/
def charsHasSub : List Char → List Char → Bool
  | cs, ps =>
    if charsStartWith cs ps then true
    else
      match cs with
      | [] => false
      | _ :: rest => charsHasSub rest ps

/-- Python `kw in colName.lower()`: case-insensitive keyword containment,
as used by every role test in src/app.py (the keywords are lowercase). -/
def containsKw (colName kw : String) : Bool :=
  charsHasSub (colName.toList.map Char.toLower) kw.toList

/-- Column payload: pandas numeric dtype or object (text) dtype. -/
inductive ColData where
  | numeric (vals : List ℚ)
  | strs (vals : List String)
deriving DecidableEq

/-- A named dataframe column. -/
structure Column where
  name : String
  data : ColData
deriving DecidableEq

/-- A dataframe: ordered named columns (src/app.py reads `df.columns` in
left-to-right order everywhere). -/
structure DataFrame where
  cols : List Column
deriving DecidableEq

/-- `df.select_dtypes(include=[np.number])` membership test. -/
def colIsNumeric (c : Column) : Bool :=
  match c.data with
  | .numeric _ => true
  | .strs _ => false

/-- `df.select_dtypes(include=['object'])` membership test. -/
def colIsObject (c : Column) : Bool :=
  match c.data with
  | .numeric _ => false
  | .strs _ => true

/-- Numeric columns in original order (app.py line 107 / 197). -/
def numericCols (df : DataFrame) : List Column :=
  df.cols.filter colIsNumeric

/-- Object columns in original order (app.py line 106 / 198). -/
def objectCols (df : DataFrame) : List Column :=
  df.cols.filter colIsObject

/-- Revenue-role test of `analyze_data` (line 92):
`'revenue' in col.lower() or 'sales' in col.lower()`. -/
def isRevKwAnalyze (s : String) : Bool :=
  containsKw s "revenue" || containsKw s "sales"

/-- Revenue-role test of `create_visualizations` (line 201):
`'revenue' in col.lower()` only — no `'sales'`. -/
def isRevKwViz (s : String) : Bool :=
  containsKw s "revenue"

/-- `revenue_cols` of `analyze_data` (line 92). -/
def revenueColsOf (df : DataFrame) : List Column :=
  df.cols.filter (fun c => isRevKwAnalyze c.name)

/-- `stock_cols` of `analyze_data` (line 141): `'stock'` or `'inventory'`. -/
def stockColsOf (df : DataFrame) : List Column :=
  df.cols.filter (fun c => containsKw c.name "stock" || containsKw c.name "inventory")

/-- `lead_time_cols` of `analyze_data` (line 155): `'lead'` and `'time'`. -/
def leadColsOf (df : DataFrame) : List Column :=
  df.cols.filter (fun c => containsKw c.name "lead" && containsKw c.name "time")

/-- `cost_cols` of `analyze_data` (line 169): `'cost'` or `'price'`. -/
def costColsOf (df : DataFrame) : List Column :=
  df.cols.filter (fun c => containsKw c.name "cost" || containsKw c.name "price")

/-- Category keyword test of `analyze_data` (line 113):
any of `'product'`, `'category'`, `'type'`, `'sku'`. -/
def isCategoryKw (s : String) : Bool :=
  containsKw s "product" || containsKw s "category" || containsKw s "type" || containsKw s "sku"

/-- The loop of lines 112-115: first object-dtyped column whose lowercased
name contains a category keyword, returned with its string values. -/
def findCategoryCol (df : DataFrame) : Option (String × List String) :=
  (objectCols df).findSome? fun c =>
    if isCategoryKw c.name then
      match c.data with
      | .strs vs => some (c.name, vs)
      | .numeric _ => none
    else none

/-- `Series.mean()` on a numeric column: NaN (`none`) when empty. -/
def seriesMean (l : List ℚ) : Option ℚ :=
  if l.length = 0 then none else some (l.sum / (l.length : ℚ))

/-- `Series.quantile(q)` with pandas' default linear interpolation:
sort ascending, index `h = q * (n - 1)`, interpolate between `⌊h⌋` and
`⌊h⌋ + 1`; NaN (`none`) on an empty column. -/
def quantileLinear (q : ℚ) (l : List ℚ) : Option ℚ :=
  if l.length = 0 then none
  else
    let s := List.insertionSort (fun a b : ℚ => a ≤ b) l
    let h : ℚ := q * ((l.length - 1 : ℕ) : ℚ)
    let i : ℕ := (Rat.floor h).toNat
    let vi := s.getD i 0
    let vip := s.getD (i + 1) vi
    some (vi + (h - (i : ℚ)) * (vip - vi))

/-- `value <= threshold` where the threshold may be NaN: false against NaN. -/
def leOptB (v : ℚ) (o : Option ℚ) : Bool :=
  match o with
  | some t => decide (v ≤ t)
  | none => false

/-- `value >= threshold` where the threshold may be NaN: false against NaN. -/
def geOptB (v : ℚ) (o : Option ℚ) : Bool :=
  match o with
  | some t => decide (t ≤ v)
  | none => false

/-- `value > avg * 1.5` where the mean may be NaN: false against NaN. -/
def gtAvgB (v : ℚ) (o : Option ℚ) : Bool :=
  match o with
  | some a => decide (a * (3 / 2) < v)
  | none => false

/-- Grouped aggregation `df.groupby(cat)[rev].sum()`: distinct keys in
ascending key order (pandas groupby sorts keys), each with the sum of the
revenue values at its rows. -/
def groupSums (pairs : List (String × ℚ)) : List (String × ℚ) :=
  (List.insertionSort (fun a b : String => a ≤ b) (pairs.map Prod.fst).dedup).map
    fun k => (k, ((pairs.filter fun pr => pr.1 = k).map Prod.snd).sum)

/-- Descending-by-value order used by `.sort_values(ascending=False)`. -/
def descRel (a b : String × ℚ) : Prop := b.2 ≤ a.2

instance : DecidableRel descRel := fun a b =>
  inferInstanceAs (Decidable (b.2 ≤ a.2))

instance : IsTotal (String × ℚ) descRel :=
  ⟨fun a b => le_total b.2 a.2⟩

instance : IsTrans (String × ℚ) descRel :=
  ⟨fun _ _ _ h1 h2 => le_trans h2 h1⟩

/-- Line 119: group revenue by category values and sort descending by sum. -/
def categorySortedFrom (cv : List String) (rv : List ℚ) : List (String × ℚ) :=
  List.insertionSort descRel (groupSums (cv.zip rv))

/-- The grouped category/revenue sums of a dataframe, as computed at line
119 when the category search and the revenue search both succeed and the
revenue column is numeric; `[]` otherwise. -/
def categoryGroupsOf (df : DataFrame) : List (String × ℚ) :=
  match findCategoryCol df, revenueColsOf df with
  | some (_, cv), r :: _ =>
    match r.data with
    | .numeric rv => groupSums (cv.zip rv)
    | .strs _ => []
  | _, _ => []

/-- `categoryGroupsOf` after the descending `sort_values` of line 119. -/
def categorySortedOf (df : DataFrame) : List (String × ℚ) :=
  List.insertionSort descRel (categoryGroupsOf df)

/-- The insight records `analyze_data` can append, by payload. Each
constructor corresponds to one `insights.append({...})` site. -/
inductive Insight where
  | revenuePerf (total : ℚ) (avg : Option ℚ)
  | bestCategory (label : String) (revenue : ℚ)
  | worstCategory (label : String) (revenue : ℚ)
  | inventoryAlert (lowStockCount : Nat)
  | leadTimeOpt (avg : Option ℚ) (longCount : Nat)
  | costMgmt (highCount : Nat)
  | readyForAnalysis
deriving DecidableEq

/-- The `'title'` field of each append site in src/app.py. -/
def Insight.titleOf : Insight → String
  | .revenuePerf _ _ => "💰 Revenue Performance Overview"
  | .bestCategory _ _ => "🏆 Best Performing Category"
  | .worstCategory _ _ => "⚠️ Underperforming Category"
  | .inventoryAlert _ => "📦 Inventory Alert"
  | .leadTimeOpt _ _ => "⏰ Lead Time Optimization"
  | .costMgmt _ => "💸 Cost Management Opportunity"
  | .readyForAnalysis => "📈 Ready for Analysis"

/-- Revenue analysis segment (lines 91-103). A non-empty object revenue
column raises at `.mean()`; an empty one sums to 0 with NaN mean. -/
def step1 (df : DataFrame) : List Insight × Bool :=
  match revenueColsOf df with
  | [] => ([], false)
  | c :: _ =>
    match c.data with
    | .numeric vs => ([.revenuePerf vs.sum (seriesMean vs)], false)
    | .strs vs => if vs.isEmpty then ([.revenuePerf 0 none], false) else ([], true)

/-- Category performance segment (lines 105-138). Raises at
`category_performance.index[0]` when the grouped series is empty (zero
rows), and at the `f-string` formatting when the revenue column is an
object column (its group sums are strings). There is no check on the
number of distinct category values. -/
def step2 (df : DataFrame) : List Insight × Bool :=
  if objectCols df = [] ∨ numericCols df = [] then ([], false)
  else
    match findCategoryCol df, revenueColsOf df with
    | some (_, cv), r :: _ =>
      match r.data with
      | .strs _ => ([], true)
      | .numeric rv =>
        match categorySortedFrom cv rv with
        | [] => ([], true)
        | g :: gs =>
          let gl := (g :: gs).getLast (List.cons_ne_nil g gs)
          ([.bestCategory g.1 g.2, .worstCategory gl.1 gl.2], false)
    | _, _ => ([], false)

/-- Stock level segment (lines 140-152). `quantile` on a non-empty object
column raises; on an empty column of either dtype it is NaN (pandas'
empty early-exit), the `<=` comparison selects zero rows, and the
insight is still appended with count 0. -/
def step3 (df : DataFrame) : List Insight × Bool :=
  match stockColsOf df with
  | [] => ([], false)
  | c :: _ =>
    match c.data with
    | .numeric vs =>
      let thr := quantileLinear (1 / 4) vs
      ([.inventoryAlert (vs.filter fun v => leOptB v thr).length], false)
    | .strs vs => if vs.isEmpty then ([.inventoryAlert 0], false) else ([], true)

/-- Lead time segment (lines 154-166). `mean` on a non-empty object column
raises; an empty one gives NaN mean and a zero count. -/
def step4 (df : DataFrame) : List Insight × Bool :=
  match leadColsOf df with
  | [] => ([], false)
  | c :: _ =>
    match c.data with
    | .numeric vs =>
      let avg := seriesMean vs
      ([.leadTimeOpt avg (vs.filter fun v => gtAvgB v avg).length], false)
    | .strs vs => if vs.isEmpty then ([.leadTimeOpt none 0], false) else ([], true)

/-- Cost segment (lines 168-180). `quantile` on a non-empty object column
raises; on an empty column of either dtype it is NaN, the `>=`
comparison selects zero rows, and the insight is appended with count 0. -/
def step5 (df : DataFrame) : List Insight × Bool :=
  match costColsOf df with
  | [] => ([], false)
  | c :: _ =>
    match c.data with
    | .numeric vs =>
      let thr := quantileLinear (3 / 4) vs
      ([.costMgmt (vs.filter fun v => geOptB v thr).length], false)
    | .strs vs => if vs.isEmpty then ([.costMgmt 0], false) else ([], true)

/-- Sequencing of two segments inside the single `try:` block: if the
first raised, the second never runs; otherwise their appended insights
concatenate. -/
def seqStep (a b : List Insight × Bool) : List Insight × Bool :=
  if a.2 then a else (a.1 ++ b.1, b.2)

/-- The state of the `insights` list after the first two segments. -/
def afterStep2 (df : DataFrame) : List Insight × Bool :=
  seqStep (step1 df) (step2 df)

/-- The whole `try:` body of `analyze_data` (lines 88-180): accumulated
insights plus whether an exception reached the handler. -/
def analyzeBody (df : DataFrame) : List Insight × Bool :=
  seqStep (afterStep2 df) (seqStep (step3 df) (seqStep (step4 df) (step5 df)))

/-- `analyze_data(df, user_type)` (lines 84-190). The handler (lines
182-188) appends the fixed "Ready for Analysis" insight to whatever was
accumulated before the exception. The `user_type` argument is never read
by the function body. -/
def analyzeData (df : DataFrame) (userType : String) : List Insight :=
  let b := analyzeBody df
  b.1 ++ (if b.2 then [Insight.readyForAnalysis] else [])

/-- Chart specifications `create_visualizations` can append, identified by
kind and the axis-selecting column names. `statusPlaceholder` is the fixed
3-bar chart of the exception handler (lines 279-287). -/
inductive Chart where
  | revenueByProductBar (productCol revenueCol : String)
  | stockPie (productCol stockCol : String)
  | leadRevenueScatter (leadCol revenueCol : String)
  | top10Bar (productCol revenueCol : String)
  | fallbackHistogram (priceCol : String)
  | statusPlaceholder
deriving DecidableEq

/-- `revenue_cols` of `create_visualizations` (line 201): `'revenue'` only. -/
def revenueColsViz (df : DataFrame) : List Column :=
  df.cols.filter (fun c => isRevKwViz c.name)

/-- `product_cols` (line 202): `'product'` or `'type'`, any dtype. -/
def productColsViz (df : DataFrame) : List Column :=
  df.cols.filter (fun c => containsKw c.name "product" || containsKw c.name "type")

/-- `stock_cols` (line 219): `'stock'` only (no `'inventory'` here). -/
def stockColsViz (df : DataFrame) : List Column :=
  df.cols.filter (fun c => containsKw c.name "stock")

/-- `lead_time_cols` (line 233): `'lead'` and `'time'`. -/
def leadColsViz (df : DataFrame) : List Column :=
  df.cols.filter (fun c => containsKw c.name "lead" && containsKw c.name "time")

/-- `price_cols` of the fallback (line 267): `'price'` or `'cost'`. -/
def priceColsViz (df : DataFrame) : List Column :=
  df.cols.filter (fun c => containsKw c.name "price" || containsKw c.name "cost")

/-- `len(df[col].unique())`: number of distinct values of a column. -/
def nuniqueData : ColData → Nat
  | .numeric vs => vs.dedup.length
  | .strs vs => vs.dedup.length

/-- Chart 1 (lines 200-216): revenue by product bar chart. -/
def chart1 (df : DataFrame) : List Chart :=
  match revenueColsViz df, productColsViz df with
  | r :: _, p :: _ => [.revenueByProductBar p.name r.name]
  | _, _ => []

/-- Chart 2 (lines 218-230): stock distribution pie chart. -/
def chart2 (df : DataFrame) : List Chart :=
  match stockColsViz df, productColsViz df with
  | s :: _, p :: _ => [.stockPie p.name s.name]
  | _, _ => []

/-- Chart 3 (lines 232-246): lead time vs revenue scatter. -/
def chart3 (df : DataFrame) : List Chart :=
  match leadColsViz df, revenueColsViz df with
  | l :: _, r :: _ => [.leadRevenueScatter l.name r.name]
  | _, _ => []

/-- Chart 4 (lines 248-263): top-10 horizontal bar, attempted only when
the product column has strictly more than 10 distinct values. When it is
attempted on an object-dtype revenue column, `Series.nlargest(10)` at
line 251 raises a TypeError (it cannot be used with dtype object), so
the strategy contributes no chart and the exception reaches the handler:
the second component records that raise. -/
def chart4 (df : DataFrame) : List Chart × Bool :=
  match revenueColsViz df, productColsViz df with
  | r :: _, p :: _ =>
    if 10 < nuniqueData p.data then
      match r.data with
      | .numeric _ => ([.top10Bar p.name r.name], false)
      | .strs _ => ([], true)
    else ([], false)
  | _, _ => ([], false)

/-- The chart list accumulated by the four strategies, in source order
(the charts appended before any raise in the fourth strategy). -/
def strategyCharts (df : DataFrame) : List Chart :=
  chart1 df ++ chart2 df ++ chart3 df ++ (chart4 df).1

/-- Fallback of lines 265-277: only when no chart was produced AND a
numeric column exists AND a price/cost-named column exists does a
histogram get appended; otherwise nothing is appended here. -/
def fallbackCharts (df : DataFrame) (sofar : List Chart) : List Chart :=
  if sofar = [] ∧ numericCols df ≠ [] then
    match priceColsViz df with
    | c :: _ => [Chart.fallbackHistogram c.name]
    | [] => []
  else []

/-- `create_visualizations(df)` (lines 192-289): the four strategies, then
— when nothing raised — the conditional histogram fallback. When the
fourth strategy raised, control jumps over the fallback to the exception
handler (lines 279-287), which appends the fixed `statusPlaceholder`
chart to the charts accumulated so far, exactly like the in-place list
mutation in the source. -/
def createVisualizations (df : DataFrame) : List Chart :=
  if (chart4 df).2 then chart1 df ++ chart2 df ++ chart3 df ++ [Chart.statusPlaceholder]
  else strategyCharts df ++ fallbackCharts df (strategyCharts df)

/-- Any column-name keyword that any segment of either entry point tests. -/
def colAnyRoleKw (c : Column) : Bool :=
  isRevKwAnalyze c.name || isCategoryKw c.name ||
    (containsKw c.name "stock" || containsKw c.name "inventory") ||
    (containsKw c.name "lead" && containsKw c.name "time") ||
    (containsKw c.name "cost" || containsKw c.name "price")

/-- Number of rows stored in a column. -/
def colRows (c : Column) : Nat :=
  match c.data with
  | .numeric vs => vs.length
  | .strs vs => vs.length

/-! ### Helper lemmas -/

theorem seqStep_raised (a b : List Insight × Bool) (h : a.2 = true) : seqStep a b = a := by
  simp [seqStep, h]

theorem mem_seqStep_left (a b : List Insight × Bool) (x : Insight) (hx : x ∈ a.1) :
    x ∈ (seqStep a b).1 := by
  by_cases h : a.2 <;> simp [seqStep, h, hx]

theorem rel_getLast_of_sorted {α : Type} {r : α → α → Prop} :
    ∀ (l : List α) (hl : l ≠ []) (_ : List.Sorted r l) (x : α) (_ : x ∈ l),
      r x (l.getLast hl) ∨ x = l.getLast hl
  | [], hl, _, _, _ => absurd rfl hl
  | [a], _, _, x, hx => by
      simp at hx
      subst hx
      right
      rfl
  | a :: b :: u, _, hs, x, hx => by
      rcases List.mem_cons.mp hx with hxa | hxm
      · subst hxa
        left
        rw [List.getLast_cons (List.cons_ne_nil b u)]
        exact List.rel_of_sorted_cons hs _ (List.getLast_mem (List.cons_ne_nil b u))
      · rw [List.getLast_cons (List.cons_ne_nil b u)]
        exact rel_getLast_of_sorted (b :: u) (List.cons_ne_nil b u) hs.of_cons x hxm

/-! ### Claim theorems -/

/-- Claim C2, counterexample: on a zero-row dataset with `Revenue`,
`Product` and `Cost` columns, the cost column is present and the cost
segment run on its own would emit a cost-management insight, yet the final
output has no cost insight at all: the IndexError raised in the category
segment jumped straight to the handler, so the remaining analyzers were
skipped. This refutes the claim that after a caught failure all remaining
analyzers still run. -/
theorem analyzer_failure_blocks_rest :
    costColsOf ⟨[⟨"Revenue", .numeric []⟩, ⟨"Product", .strs []⟩, ⟨"Cost", .numeric []⟩]⟩ ≠ [] ∧
    step5 ⟨[⟨"Revenue", .numeric []⟩, ⟨"Product", .strs []⟩, ⟨"Cost", .numeric []⟩]⟩ =
      ([Insight.costMgmt 0], false) ∧
    analyzeData ⟨[⟨"Revenue", .numeric []⟩, ⟨"Product", .strs []⟩, ⟨"Cost", .numeric []⟩]⟩
      "Procurement Manager" = [Insight.revenuePerf 0 none, Insight.readyForAnalysis] := by
  refine ⟨by decide, by decide, by decide⟩

/-- Claim C2, amended: an internal failure in the first two segments is
caught, a single generic "Ready for Analysis" insight is appended after
the insights already collected, and no exception escapes `analyze_data`;
but the segments after the failure point contribute nothing — the whole
body is one `try:` block, so a broken analyzer does block the ones after
it. -/
theorem failure_short_circuits (df : DataFrame) (p : String)
    (h : (afterStep2 df).2 = true) :
    analyzeData df p = (afterStep2 df).1 ++ [Insight.readyForAnalysis] := by
  have hb : analyzeBody df = afterStep2 df := by
    unfold analyzeBody
    exact seqStep_raised _ _ h
  simp [analyzeData, hb, h]

/-- Claim C2, witness: the amended statement applied to the concrete
zero-row dataset with `Revenue`, `Product` and `Cost` columns. -/
theorem failure_short_circuits_witness :
    analyzeData ⟨[⟨"Revenue", .numeric []⟩, ⟨"Product", .strs []⟩, ⟨"Cost", .numeric []⟩]⟩
      "Procurement Manager" = [Insight.revenuePerf 0 none, Insight.readyForAnalysis] :=
  (failure_short_circuits
    ⟨[⟨"Revenue", .numeric []⟩, ⟨"Product", .strs []⟩, ⟨"Cost", .numeric []⟩]⟩
    "Procurement Manager" (by decide)).trans (by decide)

/-- Claim C4, counterexample: a persona string containing "demand",
"inventory" and "stock" produces no insight whatsoever on a dataset with
no role columns — `analyze_data` never reads `user_type`, and it has no
demand-forecasting or fixed inventory-optimization insight. -/
theorem persona_keywords_produce_nothing :
    analyzeData ⟨[⟨"vals", .numeric [1]⟩]⟩ "Demand Planner handling inventory and stock" = [] := by
  decide

/-- Claim C4, amended: `analyze_data` ignores the persona argument
entirely — its output is identical for any two persona strings, so no
persona-keyword insight of any kind exists. -/
theorem analyze_ignores_persona (df : DataFrame) (p q : String) :
    analyzeData df p = analyzeData df q := rfl

/-- Claim C5, counterexample: on a dataset whose only column holds
`[1, 2, 3, 4, 5, 1000]` (one IQR outlier), `analyze_data` emits no insight
at all: it contains no outlier-scan analyzer. -/
theorem no_outlier_insight_for_iqr_example :
    analyzeData ⟨[⟨"vals", .numeric [1, 2, 3, 4, 5, 1000]⟩]⟩ "Supply Chain Manager" = [] := by
  decide

/-- Claim C5, amended: `analyze_data` has no outlier scan (and no other
value-driven analyzer): a dataset whose only column is a numeric column
whose name matches no role keyword yields no insights for any values
whatsoever, in particular for `[1,2,3,4,5,1000]`. -/
theorem no_analyzer_touches_plain_numeric_column (vals : List ℚ) (p : String) :
    analyzeData ⟨[⟨"vals", .numeric vals⟩]⟩ p = [] := rfl

/-- Claim C9, confirmed: `analyze_data` and `create_visualizations` are
deterministic — equal dataset and persona inputs give equal outputs; the
embedding of both entry points is a pure function of the dataframe and the
persona string (the source reads no clock, no random state and no state
outside its arguments). -/
theorem analyze_deterministic (df1 df2 : DataFrame) (p1 p2 : String)
    (hdf : df1 = df2) (hp : p1 = p2) :
    analyzeData df1 p1 = analyzeData df2 p2 ∧
    createVisualizations df1 = createVisualizations df2 := by
  subst hdf
  subst hp
  exact ⟨rfl, rfl⟩

/-- Claim C9, witness: determinism applied at a concrete dataset and
persona. -/
theorem analyze_deterministic_witness :
    analyzeData ⟨[⟨"Stock_Quantity", .numeric [3, 7]⟩]⟩ "Demand Planner" =
      analyzeData ⟨[⟨"Stock_Quantity", .numeric [3, 7]⟩]⟩ "Demand Planner" :=
  (analyze_deterministic _ _ _ _ rfl rfl).1

/-- Claim C10, confirmed: when the `try:` body of `analyze_data` raises,
the insights appended before the failure are retained and the generic
"Ready for Analysis" insight is appended after them — the output is the
partial list plus the placeholder, not a rollback to the placeholder
alone. -/
theorem partial_insights_retained (df : DataFrame) (p : String)
    (h : (analyzeBody df).2 = true) :
    analyzeData df p = (analyzeBody df).1 ++ [Insight.readyForAnalysis] := by
  simp [analyzeData, h]

/-- Claim C10, witness: on a zero-row dataset with `Revenue` and `Product`
columns the category segment raises, and the revenue insight appended
before the failure is retained ahead of the generic placeholder. -/
theorem partial_insights_retained_witness :
    analyzeData ⟨[⟨"Revenue", .numeric []⟩, ⟨"Product", .strs []⟩]⟩ "Inventory Planner" =
      [Insight.revenuePerf 0 none, Insight.readyForAnalysis] :=
  (partial_insights_retained ⟨[⟨"Revenue", .numeric []⟩, ⟨"Product", .strs []⟩]⟩
    "Inventory Planner" (by decide)).trans (by decide)

/-- Claim C7, counterexample: a column named `Sales_Amount` carries the
revenue role in `analyze_data` but not in `create_visualizations` — the
chart builder tests only `'revenue'`, so the two entry points disagree and
the chart-side rule is not "revenue or sales". -/
theorem sales_column_classification_disagrees :
    isRevKwAnalyze "Sales_Amount" = true ∧ isRevKwViz "Sales_Amount" = false ∧
    revenueColsOf ⟨[⟨"Sales_Amount", .numeric [1]⟩]⟩ ≠ [] ∧
    revenueColsViz ⟨[⟨"Sales_Amount", .numeric [1]⟩]⟩ = [] := by
  refine ⟨by decide, by decide, by decide, by decide⟩

/-- Claim C7, amended: `analyze_data` assigns the revenue role iff the
lowercased name contains "revenue" or "sales", while
`create_visualizations` requires "revenue" only; each test is
case-insensitive (`REVENUE_USD` and `revenue_usd` classify identically in
both), and every chart-side revenue column is an analyze-side revenue
column — the entry points disagree exactly on names with "sales" but not
"revenue". -/
theorem revenue_role_characterization :
    (isRevKwAnalyze "REVENUE_USD" = isRevKwAnalyze "revenue_usd" ∧
      isRevKwAnalyze "REVENUE_USD" = true) ∧
    (isRevKwViz "REVENUE_USD" = isRevKwViz "revenue_usd" ∧
      isRevKwViz "REVENUE_USD" = true) ∧
    ∀ s : String, isRevKwViz s = true → isRevKwAnalyze s = true := by
  refine ⟨by decide, by decide, ?_⟩
  intro s h
  simp only [isRevKwViz] at h
  simp [isRevKwAnalyze, h]

/-- Claim C7, witness: the amended statement's implication applied at a
concrete column name. -/
theorem revenue_role_characterization_witness :
    isRevKwAnalyze "unit_revenue" = true :=
  revenue_role_characterization.2.2 "unit_revenue" (by decide)

theorem statusPlaceholder_notin_chart1 (df : DataFrame) :
    Chart.statusPlaceholder ∉ chart1 df := by
  unfold chart1
  cases revenueColsViz df <;> cases productColsViz df <;> simp

theorem statusPlaceholder_notin_chart2 (df : DataFrame) :
    Chart.statusPlaceholder ∉ chart2 df := by
  unfold chart2
  cases stockColsViz df <;> cases productColsViz df <;> simp

theorem statusPlaceholder_notin_chart3 (df : DataFrame) :
    Chart.statusPlaceholder ∉ chart3 df := by
  unfold chart3
  cases leadColsViz df <;> cases revenueColsViz df <;> simp

theorem statusPlaceholder_notin_chart4 (df : DataFrame) :
    Chart.statusPlaceholder ∉ (chart4 df).1 := by
  unfold chart4
  split
  · split
    · split <;> simp
    · simp
  · simp

theorem chart4_of_strategy_nil (df : DataFrame) (hs : strategyCharts df = []) :
    chart4 df = ([], false) := by
  have h1 : chart1 df = [] := by
    unfold strategyCharts at hs
    rcases List.append_eq_nil.mp hs with ⟨h, _⟩
    rcases List.append_eq_nil.mp h with ⟨h, _⟩
    rcases List.append_eq_nil.mp h with ⟨h, _⟩
    exact h
  unfold chart4
  cases hr : revenueColsViz df with
  | nil => rfl
  | cons r rrs =>
    cases hp : productColsViz df with
    | nil => rfl
    | cons p pps =>
      have hc : chart1 df = [Chart.revenueByProductBar p.name r.name] := by
        unfold chart1
        rw [hr, hp]
      rw [h1] at hc
      exact absurd hc (by simp)

theorem statusPlaceholder_notin_fallback (df : DataFrame) (s : List Chart) :
    Chart.statusPlaceholder ∉ fallbackCharts df s := by
  unfold fallbackCharts
  split
  · cases priceColsViz df <;> simp
  · simp

/-- Claim C1, counterexample: a dataset with a single numeric column whose
name matches no role keyword makes `create_visualizations` return the
empty list — no chart strategy fires, the fallback needs a cost-or-price
column, and the 3-bar placeholder lives only in the exception handler,
which this input never reaches. This refutes "the result always has at
least one entry". -/
theorem charts_can_be_empty :
    createVisualizations ⟨[⟨"foo", .numeric [1]⟩]⟩ = [] := by decide

/-- Claim C1, amended: when no chart strategy produced a chart, the result
of `create_visualizations` is empty exactly when the dataset lacks a
numeric column or lacks a cost-or-price-named column (otherwise the
histogram fallback fires); and the fixed 3-bar status placeholder is in
the output exactly when the fourth strategy raised — it is produced only
by the exception handler, never on the normal path. -/
theorem chart_fallback_characterization (df : DataFrame) :
    (strategyCharts df = [] →
      (createVisualizations df = [] ↔ (numericCols df = [] ∨ priceColsViz df = []))) ∧
    (Chart.statusPlaceholder ∈ createVisualizations df ↔ (chart4 df).2 = true) := by
  constructor
  · intro hs
    have h4 := chart4_of_strategy_nil df hs
    have hcv : createVisualizations df = fallbackCharts df (strategyCharts df) := by
      unfold createVisualizations
      rw [h4, hs]
      simp
    rw [hcv, hs]
    unfold fallbackCharts
    by_cases hn : numericCols df = []
    · simp [hn]
    · rw [if_pos ⟨rfl, hn⟩]
      cases hp : priceColsViz df with
      | nil => simp [hn]
      | cons c cs => simp [hn, hp]
  · constructor
    · intro hmem
      by_cases hflag : (chart4 df).2 = true
      · exact hflag
      · exfalso
        unfold createVisualizations at hmem
        rw [if_neg hflag] at hmem
        rcases List.mem_append.mp hmem with h1 | h2
        · unfold strategyCharts at h1
          rcases List.mem_append.mp h1 with h1 | h4
          · rcases List.mem_append.mp h1 with h1 | h3
            · rcases List.mem_append.mp h1 with h1 | h2
              · exact statusPlaceholder_notin_chart1 df h1
              · exact statusPlaceholder_notin_chart2 df h2
            · exact statusPlaceholder_notin_chart3 df h3
          · exact statusPlaceholder_notin_chart4 df h4
        · exact statusPlaceholder_notin_fallback df _ h2
    · intro hflag
      unfold createVisualizations
      rw [if_pos hflag]
      simp

/-- Claim C1, witness: on a dataset with only a `Cost` column the
strategies produce nothing, yet the output is non-empty (the histogram
fallback fires) and contains no placeholder. -/
theorem chart_fallback_characterization_witness :
    Chart.statusPlaceholder ∉ createVisualizations ⟨[⟨"Cost", .numeric [1, 2]⟩]⟩ ∧
    createVisualizations ⟨[⟨"Cost", .numeric [1, 2]⟩]⟩ ≠ [] := by
  constructor
  · intro h
    exact absurd ((chart_fallback_characterization ⟨[⟨"Cost", .numeric [1, 2]⟩]⟩).2.mp h)
      (by decide)
  · intro h
    rcases ((chart_fallback_characterization ⟨[⟨"Cost", .numeric [1, 2]⟩]⟩).1 (by decide)).mp h
      with h1 | h1 <;> exact absurd h1 (by decide)

/-- Claim C8, counterexample: with an object-dtype `Revenue` column and a
`Type` column of 11 distinct values (cardinality strictly greater than
10), the top-10 strategy raises a TypeError at `nlargest` and the output
is the revenue bar chart followed by the handler's placeholder — the
top-10 chart is not produced although the cardinality condition holds,
refuting the unconditional "exactly when". -/
theorem object_revenue_breaks_top10 :
    10 < nuniqueData (ColData.strs ["a", "b", "c", "d", "e", "f", "g", "h", "i", "j", "k"]) ∧
    createVisualizations
      ⟨[⟨"Revenue", .strs ["r", "r", "r", "r", "r", "r", "r", "r", "r", "r", "r"]⟩,
        ⟨"Type", .strs ["a", "b", "c", "d", "e", "f", "g", "h", "i", "j", "k"]⟩]⟩ =
      [Chart.revenueByProductBar "Type" "Revenue", Chart.statusPlaceholder] ∧
    Chart.top10Bar "Type" "Revenue" ∉ createVisualizations
      ⟨[⟨"Revenue", .strs ["r", "r", "r", "r", "r", "r", "r", "r", "r", "r", "r"]⟩,
        ⟨"Type", .strs ["a", "b", "c", "d", "e", "f", "g", "h", "i", "j", "k"]⟩]⟩ := by
  refine ⟨by decide, by decide, by decide⟩

/-- Claim C8, amended: given a revenue-role and a product-role column (as
`create_visualizations` itself classifies them) where the first
revenue-role column is numeric, the top-10 horizontal bar chart is in the
output exactly when the product column has strictly more than 10 distinct
values; with an object revenue column the strategy raises at `nlargest`
instead and the placeholder is appended. -/
theorem top10_iff_cardinality (df : DataFrame) (r p : Column) (rs ps : List Column)
    (rv : List ℚ)
    (hrev : revenueColsViz df = r :: rs) (hprod : productColsViz df = p :: ps)
    (hdata : r.data = ColData.numeric rv) :
    Chart.top10Bar p.name r.name ∈ createVisualizations df ↔ 10 < nuniqueData p.data := by
  have h1 : chart1 df = [Chart.revenueByProductBar p.name r.name] := by
    unfold chart1
    rw [hrev, hprod]
  have h4 : chart4 df =
      (if 10 < nuniqueData p.data then
        (match r.data with
         | ColData.numeric _ => ([Chart.top10Bar p.name r.name], false)
         | ColData.strs _ => ([], true))
       else ([], false)) := by
    unfold chart4
    rw [hrev, hprod]
  rw [hdata] at h4
  have h4b : chart4 df =
      (if 10 < nuniqueData p.data then ([Chart.top10Bar p.name r.name], false)
       else ([], false)) := h4
  have hflag : (chart4 df).2 = false := by
    rw [h4b]
    split <;> rfl
  have hsne : strategyCharts df ≠ [] := by
    unfold strategyCharts
    rw [h1]
    simp
  have hfb : fallbackCharts df (strategyCharts df) = [] := by
    unfold fallbackCharts
    rw [if_neg]
    rintro ⟨h, _⟩
    exact hsne h
  have hcv : createVisualizations df =
      strategyCharts df ++ fallbackCharts df (strategyCharts df) := by
    unfold createVisualizations
    rw [if_neg (by rw [hflag]; decide)]
  rw [hcv, hfb, List.append_nil]
  unfold strategyCharts
  rw [h1, h4b]
  cases hst : stockColsViz df <;> cases hld : leadColsViz df <;>
    by_cases hn : 10 < nuniqueData p.data <;>
      simp [chart2, chart3, hst, hld, hprod, hrev, hn]

/-- Claim C8, witness: with a numeric revenue column and 11 distinct
product values the top-10 chart is produced; with exactly 10 distinct
values it is not. -/
theorem top10_iff_cardinality_witness :
    Chart.top10Bar "Type" "Revenue" ∈ createVisualizations
      ⟨[⟨"Revenue", .numeric [1, 2, 3, 4, 5, 6, 7, 8, 9, 10, 11]⟩,
        ⟨"Type", .strs ["a", "b", "c", "d", "e", "f", "g", "h", "i", "j", "k"]⟩]⟩ ∧
    Chart.top10Bar "Type" "Revenue" ∉ createVisualizations
      ⟨[⟨"Revenue", .numeric [1, 2, 3, 4, 5, 6, 7, 8, 9, 10]⟩,
        ⟨"Type", .strs ["a", "b", "c", "d", "e", "f", "g", "h", "i", "j"]⟩]⟩ := by
  constructor
  · exact (top10_iff_cardinality
      ⟨[⟨"Revenue", .numeric [1, 2, 3, 4, 5, 6, 7, 8, 9, 10, 11]⟩,
        ⟨"Type", .strs ["a", "b", "c", "d", "e", "f", "g", "h", "i", "j", "k"]⟩]⟩
      ⟨"Revenue", .numeric [1, 2, 3, 4, 5, 6, 7, 8, 9, 10, 11]⟩
      ⟨"Type", .strs ["a", "b", "c", "d", "e", "f", "g", "h", "i", "j", "k"]⟩
      [] [] [1, 2, 3, 4, 5, 6, 7, 8, 9, 10, 11] rfl rfl rfl).mpr (by decide)
  · intro h
    exact absurd ((top10_iff_cardinality
      ⟨[⟨"Revenue", .numeric [1, 2, 3, 4, 5, 6, 7, 8, 9, 10]⟩,
        ⟨"Type", .strs ["a", "b", "c", "d", "e", "f", "g", "h", "i", "j"]⟩]⟩
      ⟨"Revenue", .numeric [1, 2, 3, 4, 5, 6, 7, 8, 9, 10]⟩
      ⟨"Type", .strs ["a", "b", "c", "d", "e", "f", "g", "h", "i", "j"]⟩
      [] [] [1, 2, 3, 4, 5, 6, 7, 8, 9, 10] rfl rfl rfl).mp h) (by decide)

/-- Claim C3, counterexample: on a zero-row dataset with `Revenue` and
`Product` columns the analyzers do NOT all return empty — the revenue
segment emits an insight (total 0, NaN mean) and the category segment
raises an index-out-of-range that is downgraded to the generic insight;
and on a zero-row dataset with no role column the chart builder returns
the empty list, not the fallback placeholder chart. -/
theorem zero_rows_analyzers_not_empty :
    analyzeData ⟨[⟨"Revenue", .numeric []⟩, ⟨"Product", .strs []⟩]⟩ "Operations Manager" ≠ [] ∧
    analyzeData ⟨[⟨"Revenue", .numeric []⟩, ⟨"Product", .strs []⟩]⟩ "Operations Manager" =
      [Insight.revenuePerf 0 none, Insight.readyForAnalysis] ∧
    createVisualizations ⟨[⟨"bar", .numeric []⟩]⟩ = [] := by
  refine ⟨by decide, by decide, by decide⟩

/-- Claim C3, amended: a zero-row dataset none of whose column names
matches a role keyword yields an empty insight list and an empty chart
list (not the placeholder chart). Zero-row datasets with role columns can
still produce insights, including the generic one after a caught
index-out-of-range, as the counterexample shows. -/
theorem no_keyword_zero_rows_empty (df : DataFrame) (p : String)
    (hkw : ∀ c ∈ df.cols, colAnyRoleKw c = false)
    (hz : ∀ c ∈ df.cols, colRows c = 0) :
    analyzeData df p = [] ∧ createVisualizations df = [] := by
  have key : ∀ c ∈ df.cols,
      containsKw c.name "revenue" = false ∧ containsKw c.name "sales" = false ∧
      containsKw c.name "product" = false ∧ containsKw c.name "category" = false ∧
      containsKw c.name "type" = false ∧ containsKw c.name "sku" = false ∧
      containsKw c.name "stock" = false ∧ containsKw c.name "inventory" = false ∧
      (containsKw c.name "lead" && containsKw c.name "time") = false ∧
      containsKw c.name "cost" = false ∧ containsKw c.name "price" = false := by
    intro c hc
    have h := hkw c hc
    simp only [colAnyRoleKw, isRevKwAnalyze, isCategoryKw, Bool.or_eq_false_iff] at h
    obtain ⟨⟨⟨⟨⟨h1, h2⟩, ⟨⟨⟨h3, h4⟩, h5⟩, h6⟩⟩, ⟨h7, h8⟩⟩, h9⟩, ⟨h10, h11⟩⟩ := h
    exact ⟨h1, h2, h3, h4, h5, h6, h7, h8, h9, h10, h11⟩
  have hrev : revenueColsOf df = [] := by
    rw [revenueColsOf, List.filter_eq_nil_iff]
    intro c hc
    obtain ⟨h1, h2, -⟩ := key c hc
    simp [isRevKwAnalyze, h1, h2]
  have hcatfind : findCategoryCol df = none := by
    rw [findCategoryCol, List.findSome?_eq_none_iff]
    intro c hc
    obtain ⟨-, -, h3, h4, h5, h6, -⟩ := key c (List.mem_filter.mp hc).1
    simp [isCategoryKw, h3, h4, h5, h6]
  have hstock : stockColsOf df = [] := by
    rw [stockColsOf, List.filter_eq_nil_iff]
    intro c hc
    obtain ⟨-, -, -, -, -, -, h7, h8, -⟩ := key c hc
    simp [h7, h8]
  have hlead : leadColsOf df = [] := by
    rw [leadColsOf, List.filter_eq_nil_iff]
    intro c hc
    obtain ⟨-, -, -, -, -, -, -, -, h9, -⟩ := key c hc
    simp [h9]
  have hcost : costColsOf df = [] := by
    rw [costColsOf, List.filter_eq_nil_iff]
    intro c hc
    obtain ⟨-, -, -, -, -, -, -, -, -, h10, h11⟩ := key c hc
    simp [h10, h11]
  have hrevV : revenueColsViz df = [] := by
    rw [revenueColsViz, List.filter_eq_nil_iff]
    intro c hc
    obtain ⟨h1, -⟩ := key c hc
    simp [isRevKwViz, h1]
  have hprodV : productColsViz df = [] := by
    rw [productColsViz, List.filter_eq_nil_iff]
    intro c hc
    obtain ⟨-, -, h3, -, h5, -⟩ := key c hc
    simp [h3, h5]
  have hstockV : stockColsViz df = [] := by
    rw [stockColsViz, List.filter_eq_nil_iff]
    intro c hc
    obtain ⟨-, -, -, -, -, -, h7, -⟩ := key c hc
    simp [h7]
  have hleadV : leadColsViz df = [] := by
    rw [leadColsViz, List.filter_eq_nil_iff]
    intro c hc
    obtain ⟨-, -, -, -, -, -, -, -, h9, -⟩ := key c hc
    simp [h9]
  have hpriceV : priceColsViz df = [] := by
    rw [priceColsViz, List.filter_eq_nil_iff]
    intro c hc
    obtain ⟨-, -, -, -, -, -, -, -, -, h10, h11⟩ := key c hc
    simp [h10, h11]
  have hs1 : step1 df = ([], false) := by simp [step1, hrev]
  have hs2 : step2 df = ([], false) := by simp [step2, hcatfind, hrev]
  have hs3 : step3 df = ([], false) := by simp [step3, hstock]
  have hs4 : step4 df = ([], false) := by simp [step4, hlead]
  have hs5 : step5 df = ([], false) := by simp [step5, hcost]
  constructor
  · simp [analyzeData, analyzeBody, afterStep2, seqStep, hs1, hs2, hs3, hs4, hs5]
  · simp [createVisualizations, strategyCharts, chart1, chart2, chart3, chart4,
      fallbackCharts, hrevV, hprodV, hstockV, hleadV, hpriceV]

/-- Claim C3, witness: the amended statement applied to the concrete
zero-row dataset with one keyword-free numeric column. -/
theorem no_keyword_zero_rows_empty_witness :
    analyzeData ⟨[⟨"measurement", .numeric []⟩]⟩ "Finance Manager" = [] ∧
    createVisualizations ⟨[⟨"measurement", .numeric []⟩]⟩ = [] :=
  no_keyword_zero_rows_empty ⟨[⟨"measurement", .numeric []⟩]⟩ "Finance Manager"
    (by decide) (by decide)

/-- Claim C6, counterexample: with a `Revenue` column and a `Product`
column holding a single distinct value, `analyze_data` still emits both
the best and the worst category insight (both naming "A"); the claimed
"at least 2 distinct values, else nothing" guard does not exist in the
code. -/
theorem single_category_value_still_emits :
    analyzeData ⟨[⟨"Revenue", .numeric [1, 2]⟩, ⟨"Product", .strs ["A", "A"]⟩]⟩ "Business Owner" =
      [Insight.revenuePerf 3 (some (3 / 2)),
       Insight.bestCategory "A" 3, Insight.worstCategory "A" 3] := by
  with_unfolding_all decide

/-- Claim C6, amended: whenever the dataset has at least one object and
one numeric column, the category search finds a column, the first
revenue-role column is numeric, and the grouped category/revenue sums are
non-empty, `analyze_data` emits a best insight naming a category with the
maximal summed revenue and a worst insight naming one with the minimal
summed revenue — with no condition on the number of distinct category
values (one distinct value makes best and worst coincide). -/
theorem analyze_category_best_worst (df : DataFrame) (p : String)
    (ccn : String) (cv : List String) (r : Column) (rs : List Column) (rv : List ℚ)
    (g : String × ℚ) (gs : List (String × ℚ))
    (hobj : objectCols df ≠ []) (hnum : numericCols df ≠ [])
    (hcat : findCategoryCol df = some (ccn, cv))
    (hrev : revenueColsOf df = r :: rs)
    (hdata : r.data = ColData.numeric rv)
    (hs : categorySortedOf df = g :: gs) :
    Insight.bestCategory g.1 g.2 ∈ analyzeData df p ∧
    Insight.worstCategory ((g :: gs).getLast (List.cons_ne_nil g gs)).1
      ((g :: gs).getLast (List.cons_ne_nil g gs)).2 ∈ analyzeData df p ∧
    g ∈ categoryGroupsOf df ∧
    (g :: gs).getLast (List.cons_ne_nil g gs) ∈ categoryGroupsOf df ∧
    ∀ q ∈ categoryGroupsOf df,
      q.2 ≤ g.2 ∧ ((g :: gs).getLast (List.cons_ne_nil g gs)).2 ≤ q.2 := by
  obtain ⟨rn, rd⟩ := r
  have hdata2 : rd = ColData.numeric rv := hdata
  subst hdata2
  have hgroups : categoryGroupsOf df = groupSums (cv.zip rv) := by
    unfold categoryGroupsOf
    rw [hcat, hrev]
  have hfrom : categorySortedFrom cv rv = g :: gs := by
    have heq : categorySortedOf df = categorySortedFrom cv rv := by
      unfold categorySortedOf categorySortedFrom
      rw [hgroups]
    rw [← heq]
    exact hs
  have hsorted : List.Sorted descRel (g :: gs) := by
    rw [← hfrom]
    unfold categorySortedFrom
    exact List.sorted_insertionSort descRel (groupSums (cv.zip rv))
  have hmemiff : ∀ x : String × ℚ, x ∈ categoryGroupsOf df ↔ x ∈ g :: gs := by
    intro x
    rw [hgroups, ← hfrom]
    unfold categorySortedFrom
    exact (List.mem_insertionSort descRel).symm
  have hstep1 : step1 df = ([Insight.revenuePerf rv.sum (seriesMean rv)], false) := by
    unfold step1
    rw [hrev]
  have hmid : step2 df =
      (match categorySortedFrom cv rv with
       | [] => ([], true)
       | g2 :: gs2 =>
         ([Insight.bestCategory g2.1 g2.2,
           Insight.worstCategory ((g2 :: gs2).getLast (List.cons_ne_nil g2 gs2)).1
             ((g2 :: gs2).getLast (List.cons_ne_nil g2 gs2)).2], false)) := by
    unfold step2
    rw [if_neg (not_or.mpr ⟨hobj, hnum⟩), hcat, hrev]
  rw [hfrom] at hmid
  have hstep2 : step2 df =
      ([Insight.bestCategory g.1 g.2,
        Insight.worstCategory ((g :: gs).getLast (List.cons_ne_nil g gs)).1
          ((g :: gs).getLast (List.cons_ne_nil g gs)).2], false) := hmid
  have hafter : afterStep2 df =
      ([Insight.revenuePerf rv.sum (seriesMean rv),
        Insight.bestCategory g.1 g.2,
        Insight.worstCategory ((g :: gs).getLast (List.cons_ne_nil g gs)).1
          ((g :: gs).getLast (List.cons_ne_nil g gs)).2], false) := by
    unfold afterStep2
    rw [hstep1, hstep2]
    rfl
  have hmemBody : ∀ x : Insight, x ∈ (afterStep2 df).1 → x ∈ analyzeData df p := by
    intro x hx
    have hx2 : x ∈ (analyzeBody df).1 := by
      unfold analyzeBody
      exact mem_seqStep_left _ _ x hx
    unfold analyzeData
    exact List.mem_append_left _ hx2
  refine ⟨?_, ?_, ?_, ?_, ?_⟩
  · exact hmemBody _ (by rw [hafter]; simp)
  · exact hmemBody _ (by rw [hafter]; simp)
  · exact (hmemiff g).mpr (List.mem_cons_self g gs)
  · exact (hmemiff _).mpr (List.getLast_mem (List.cons_ne_nil g gs))
  · intro q hq
    have hq2 : q ∈ g :: gs := (hmemiff q).mp hq
    constructor
    · rcases List.mem_cons.mp hq2 with h | h
      · subst h
        exact le_refl _
      · exact List.rel_of_sorted_cons hsorted q h
    · rcases rel_getLast_of_sorted (g :: gs) (List.cons_ne_nil g gs) hsorted q hq2 with h | h
      · exact h
      · rw [h]

/-- Claim C6, witness: on `Revenue = [1,2,3]`, `Product = ["A","B","A"]`
the best insight names "A" (summed revenue 4) and the worst names "B"
(summed revenue 2), and both are in the output of `analyze_data`. -/
theorem analyze_category_best_worst_witness :
    Insight.bestCategory "A" 4 ∈ analyzeData
      ⟨[⟨"Revenue", .numeric [1, 2, 3]⟩, ⟨"Product", .strs ["A", "B", "A"]⟩]⟩
      "Supply Chain Manager" ∧
    Insight.worstCategory "B" 2 ∈ analyzeData
      ⟨[⟨"Revenue", .numeric [1, 2, 3]⟩, ⟨"Product", .strs ["A", "B", "A"]⟩]⟩
      "Supply Chain Manager" := by
  have h := analyze_category_best_worst
    ⟨[⟨"Revenue", .numeric [1, 2, 3]⟩, ⟨"Product", .strs ["A", "B", "A"]⟩]⟩
    "Supply Chain Manager" "Product" ["A", "B", "A"]
    ⟨"Revenue", .numeric [1, 2, 3]⟩ [] [1, 2, 3] ("A", 4) [("B", 2)]
    (by decide) (by decide) rfl rfl rfl (by with_unfolding_all decide)
  exact ⟨h.1, h.2.1⟩

end SupplyWise
